import Mathlib

/-!
Shallow embedding of the InvenTrack inventory tracker (src/InvenTrack.jsx).

JavaScript strings are modelled through structural helpers over `List Char`
(`jsSplit`, `jsTrim`, `jsToLower`, `jsIncludes`), mirroring the exact
semantics of `String.prototype.split`, `trim`, `toLowerCase` and `includes`
on the ASCII range that the application exercises.  Component state is a
record (`AppState`) mirroring the React `useState` slots; event handlers
become pure state transformers, and backend writes become explicit actions
or functions on the document collection.
-/

deriving instance DecidableEq for Except

namespace InvenTrack

/-- One character of JavaScript whitespace (ASCII range used by the app). -/
def jsIsWS (c : Char) : Bool :=
  c == ' ' || c == '\t' || c == '\r' || c == '\n'

/-- Drop leading and trailing whitespace, as `String.prototype.trim`. -/
def trimChars (l : List Char) : List Char :=
  ((l.dropWhile jsIsWS).reverse.dropWhile jsIsWS).reverse

/-- JavaScript `s.trim()`. -/
def jsTrim (s : String) : String :=
  String.mk (trimChars s.data)

/-- Split a character list on a separator character, as
`String.prototype.split` with a one-character separator: the empty string
yields `[""]`, and separators at the ends yield empty fields. -/
def splitChar (sep : Char) : List Char → List (List Char)
  | [] => [[]]
  | c :: cs =>
    if c == sep then [] :: splitChar sep cs
    else
      match splitChar sep cs with
      | [] => [[c]]
      | g :: gs => (c :: g) :: gs

/-- JavaScript `s.split(sep)` for a one-character separator. -/
def jsSplit (sep : Char) (s : String) : List String :=
  (splitChar sep s.data).map String.mk

/-- JavaScript `s.toLowerCase()` on the ASCII range. -/
def jsToLower (s : String) : String :=
  String.mk (s.data.map Char.toLower)

/-- Does `l` start with `pat`? -/
def startsWithList : List Char → List Char → Bool
  | _, [] => true
  | [], _ :: _ => false
  | c :: cs, p :: ps => c == p && startsWithList cs ps

/-- Does `pat` occur as a contiguous run inside `l`? -/
def hasSubList (pat : List Char) : List Char → Bool
  | [] => pat.isEmpty
  | c :: cs => startsWithList (c :: cs) pat || hasSubList pat cs

/-- JavaScript `s.includes(pat)`: substring containment. -/
def jsIncludes (s pat : String) : Bool :=
  hasSubList pat.data s.data

/-- JavaScript `s.startsWith(pat)`. -/
def strStartsWith (s pat : String) : Bool :=
  startsWithList s.data pat.data

/-- First index of `x` in `l`, as JavaScript `Array.prototype.indexOf`
(`none` models the -1 result). -/
def idxOf? : List String → String → Option Nat
  | [], _ => none
  | h :: t, x => if h = x then some 0 else (idxOf? t x).map (· + 1)

/-- Boolean list membership for strings. -/
def memStr (x : String) : List String → Bool
  | [] => false
  | h :: t => x == h || memStr x t

/-- An item record as produced by the CSV parser (no id yet). -/
structure Item where
  name : String
  category : String
  taken : Bool
deriving Repr, DecidableEq

/-- A persisted inventory document: an item plus its backend-assigned id. -/
structure ItemDoc where
  id : String
  name : String
  category : String
  taken : Bool
deriving Repr, DecidableEq

/-- The error message thrown when the header lacks a required column. -/
def formatErrorMsg : String := "CSV must contain \"name\" and \"category\" columns."

/-- The lines of the CSV text: `csvText.trim().split('\n')`. -/
def csvLines (csvText : String) : List String :=
  jsSplit '\n' (jsTrim csvText)

/-- The header fields: `lines[0].split(',').map(h => h.trim().toLowerCase())`. -/
def csvHeaders (csvText : String) : List String :=
  (jsSplit ',' ((csvLines csvText).getD 0 "")).map (fun h => jsToLower (jsTrim h))

/-- One data line of the CSV body.  An empty line is skipped; otherwise the
line is split on commas, the `name` and `category` fields are read at the
discovered indices with JavaScript truthiness (a missing or empty raw field
is falsy), and a row whose name is empty is dropped. -/
def parseRow (nameIdx catIdx : Nat) (line : String) : Option Item :=
  if line = "" then none
  else
    let values := jsSplit ',' line
    let rawName := values.getD nameIdx ""
    let name := if rawName = "" then "" else jsTrim rawName
    let rawCat := values.getD catIdx ""
    let category := if rawCat = "" then "Uncategorized" else jsTrim rawCat
    if name = "" then none
    else some { name := name, category := category, taken := false }

/-- `parseCSV` from src/InvenTrack.jsx: locate the `name` and `category`
columns case-insensitively in the header, fail when either is absent, and
fold the remaining lines through `parseRow`.  `Except.error` models the
thrown `Error`. -/
def parseCSV (csvText : String) : Except String (List Item) :=
  match idxOf? (csvHeaders csvText) "name", idxOf? (csvHeaders csvText) "category" with
  | some nameIdx, some catIdx =>
    .ok (((csvLines csvText).drop 1).filterMap (parseRow nameIdx catIdx))
  | _, _ => .error formatErrorMsg

/-- The React component state: one field per `useState` slot. -/
structure AppState where
  items : List ItemDoc
  categories : List String
  selectedCategory : String
  searchQuery : String
  isAuthReady : Bool
  userId : Option String
  isLoading : Bool
  error : Option String
  uploading : Bool
  uploadSuccess : Option String
deriving Repr, DecidableEq

/-- The component state at mount time (the `useState` defaults). -/
def initialAppState : AppState :=
  { items := [], categories := [], selectedCategory := "All", searchQuery := ""
    isAuthReady := false, userId := none, isLoading := true, error := none
    uploading := false, uploadSuccess := none }

/-- Append `c` to `l` unless already present: one `Set.add` step in the
snapshot handler (JavaScript `Set` keeps first-insertion order). -/
def insertUnique (l : List String) (c : String) : List String :=
  if memStr c l then l else l ++ [c]

/-- The category list rebuilt by the snapshot handler: a `Set` seeded with
"All", extended with each document's category when it is truthy
(non-empty), in snapshot iteration order. -/
def buildCategories (docs : List ItemDoc) : List String :=
  docs.foldl (fun acc d => if d.category = "" then acc else insertUnique acc d.category) ["All"]

/-- The `onSnapshot` success callback: rebuild `items` and `categories`
from the snapshot, clear `isLoading`, and clear `error`. -/
def onSnapshotSuccess (docs : List ItemDoc) (s : AppState) : AppState :=
  { s with items := docs, categories := buildCategories docs
           isLoading := false, error := none }

/-- The `onSnapshot` error callback: set the error banner and clear
`isLoading`; every other field is left as it was. -/
def onSnapshotError (s : AppState) : AppState :=
  { s with error := some "Failed to load items. Check console for details."
           isLoading := false }

/-- The synchronous head of `handleFileUpload` once a file is selected:
set `uploading`, clear the error banner and the success banner. -/
def startUpload (s : AppState) : AppState :=
  { s with uploading := true, error := none, uploadSuccess := none }

/-- The `catch` branch of the upload handler: prefix the thrown message
with "Upload Failed: " and reset the uploading indicator. -/
def uploadCatch (msg : String) (s : AppState) : AppState :=
  { s with error := some ("Upload Failed: " ++ msg), uploading := false }

/-- The `reader.onerror` branch: a fixed file-read message (no prefix) and
a reset of the uploading indicator. -/
def readerOnError (s : AppState) : AppState :=
  { s with error := some "Failed to read the file.", uploading := false }

/-- Pair each parsed item with a backend-assigned fresh document id, in
order (`doc(collection(db, path))` followed by `batch.set`). -/
def mkDocs : List String → List Item → List ItemDoc
  | fid :: fids, it :: its =>
    { id := fid, name := it.name, category := it.category, taken := it.taken } :: mkDocs fids its
  | _, _ => []

/-- Commit the built batch: atomically delete every document whose id was
staged for deletion and append the staged inserts. -/
def commitBatch (deletes : List String) (inserts : List ItemDoc) (coll : List ItemDoc) : List ItemDoc :=
  coll.filter (fun d => !(memStr d.id deletes)) ++ inserts

/-- The `reader.onload` handler of `handleFileUpload`.  `coll` is the
persisted collection at this point, which is also what `getDocs` on the
collection query returns; `freshIds` are the ids the backend assigns to the
new documents.  Returns the component state and the collection after the
handler runs: parse the text, treat an empty parse as a thrown error, stage
a delete of every fetched document and an insert of every parsed record,
and commit atomically; any thrown message lands in the `catch` branch. -/
def readerOnLoad (csvText : String) (coll : List ItemDoc) (freshIds : List String)
    (s : AppState) : AppState × List ItemDoc :=
  match parseCSV csvText with
  | .error msg => (uploadCatch msg s, coll)
  | .ok parsed =>
    if parsed.length = 0 then
      (uploadCatch "No valid items found in the CSV." s, coll)
    else
      let deletes := coll.map ItemDoc.id
      let inserts := mkDocs freshIds parsed
      ({ s with uploadSuccess := some ("Successfully uploaded " ++ toString parsed.length ++ " items!")
                uploading := false },
       commitBatch deletes inserts coll)

/-- A backend write requested by an event handler. -/
inductive WriteAction where
  | noWrite
  | updateTaken (itemId : String) (value : Bool)
deriving Repr, DecidableEq

/-- `handleTakeItem`: with no signed-in user, surface an authorization
error and request no write; otherwise request a partial update setting the
item's `taken` field to the negation of the passed current status. -/
def handleTakeItem (itemId : String) (currentStatus : Bool) (s : AppState) :
    AppState × WriteAction :=
  match s.userId with
  | none => ({ s with error := some "You must be signed in to take an item." }, .noWrite)
  | some _ => (s, .updateTaken itemId (!currentStatus))

/-- The backend applying `updateDoc(itemRef, \x7b taken: v \x7d)` to one
document: only the matching document's `taken` field changes. -/
def updateTakenDoc (itemId : String) (v : Bool) (d : ItemDoc) : ItemDoc :=
  if d.id = itemId then { d with taken := v } else d

/-- The collection after the backend applies a `taken` update. -/
def applyUpdateTaken (itemId : String) (v : Bool) (docs : List ItemDoc) : List ItemDoc :=
  docs.map (updateTakenDoc itemId v)

/-- Stage 1 of the derived view: `categoryFilteredItems`. -/
def categoryFilteredItems (items : List ItemDoc) (selectedCategory : String) : List ItemDoc :=
  if selectedCategory = "All" then items
  else items.filter (fun it => it.category == selectedCategory)

/-- Stage 2 of the derived view: `displayedItems`, filtering Stage 1 by a
case-insensitive substring match on the name when a query is present. -/
def displayedItems (items : List ItemDoc) (selectedCategory searchQuery : String) : List ItemDoc :=
  if searchQuery = "" then categoryFilteredItems items selectedCategory
  else
    let lowerCaseQuery := jsToLower searchQuery
    (categoryFilteredItems items selectedCategory).filter
      (fun it => jsIncludes (jsToLower it.name) lowerCaseQuery)

/-- The dashboard numbers. -/
structure Stats where
  total : Nat
  taken : Nat
  notTaken : Nat
deriving Repr, DecidableEq

/-- `dashboardStats`: counts over the category-filtered list only. -/
def dashboardStats (items : List ItemDoc) (selectedCategory : String) : Stats :=
  let sourceItems := categoryFilteredItems items selectedCategory
  let total := sourceItems.length
  let taken := (sourceItems.filter (fun it => it.taken)).length
  { total := total, taken := taken, notTaken := total - taken }

/-- Everything the render derives from items, category selection and
search text. -/
structure ViewState where
  displayed : List ItemDoc
  stats : Stats
deriving Repr, DecidableEq

/-- The derived view state for given inputs. -/
def derivedView (items : List ItemDoc) (selectedCategory searchQuery : String) : ViewState :=
  { displayed := displayedItems items selectedCategory searchQuery
    stats := dashboardStats items selectedCategory }

/-- Modelled from the spec: Stage 1 of the pipeline in section 4.6 — with
the "All" sentinel selected, pass the list through unchanged; otherwise
keep exactly the items whose category equals the selection. -/
def specStage1 (items : List ItemDoc) (sel : String) : List ItemDoc :=
  if sel = "All" then items
  else items.filter (fun it => it.category == sel)

/-- Modelled from the spec: Stage 2 of the pipeline in section 4.6 — with
an empty search text, pass Stage 1's output through unchanged; otherwise
keep exactly the items whose lowercased name contains the lowercased
search text as a substring. -/
def specStage2 (stage1Out : List ItemDoc) (q : String) : List ItemDoc :=
  if q = "" then stage1Out
  else stage1Out.filter (fun it => jsIncludes (jsToLower it.name) (jsToLower q))

theorem memStr_iff (x : String) (l : List String) : memStr x l = true ↔ x ∈ l := by
  induction l with
  | nil => simp [memStr]
  | cons h t ih => simp [memStr, ih, Bool.or_eq_true, beq_iff_eq, List.mem_cons]

theorem idxOf_eq_none_iff (l : List String) (x : String) : idxOf? l x = none ↔ x ∉ l := by
  induction l with
  | nil => simp [idxOf?]
  | cons h t ih =>
    by_cases hx : h = x
    · simp [idxOf?, hx]
    · simp [idxOf?, hx, Option.map_eq_none', ih, List.mem_cons, Ne.symm hx]

theorem commitBatch_deleteAll (coll inserts : List ItemDoc) :
    commitBatch (coll.map ItemDoc.id) inserts coll = inserts := by
  unfold commitBatch
  have hnil : coll.filter (fun d => !(memStr d.id (coll.map ItemDoc.id))) = [] := by
    apply List.filter_eq_nil_iff.mpr
    intro d hd
    have hm : memStr d.id (coll.map ItemDoc.id) = true :=
      (memStr_iff _ _).mpr (List.mem_map_of_mem _ hd)
    simp [hm]
  rw [hnil]
  rfl

theorem mkDocs_length (fids : List String) (its : List Item) (h : fids.length = its.length) :
    (mkDocs fids its).length = its.length := by
  induction fids generalizing its with
  | nil =>
    cases its with
    | nil => rfl
    | cons i is => simp at h
  | cons f fs ih =>
    cases its with
    | nil => simp [mkDocs]
    | cons i is =>
      simp only [mkDocs, List.length_cons]
      exact congrArg (· + 1) (ih is (by simpa using h))

theorem readerOnLoad_ok (csv : String) (coll : List ItemDoc) (fresh : List String)
    (s : AppState) (parsed : List Item)
    (hp : parseCSV csv = .ok parsed) (hne : parsed ≠ []) :
    (readerOnLoad csv coll fresh s).2 = mkDocs fresh parsed := by
  unfold readerOnLoad
  rw [hp]
  have h0 : ¬ parsed.length = 0 := by simpa [List.length_eq_zero] using hne
  simp [h0, commitBatch_deleteAll]

theorem applyUpdateTaken_twice (itemId : String) (cur : Bool) (docs : List ItemDoc) :
    (∀ d ∈ docs, d.id = itemId → d.taken = cur) →
    applyUpdateTaken itemId (!(!cur)) (applyUpdateTaken itemId (!cur) docs) = docs := by
  induction docs with
  | nil => intro _; rfl
  | cons d ds ih =>
    intro hall
    have hd : updateTakenDoc itemId (!(!cur)) (updateTakenDoc itemId (!cur) d) = d := by
      by_cases h : d.id = itemId
      · have ht := hall d (List.mem_cons_self d ds) h
        cases d with
        | mk i n c t =>
          simp only at ht h
          subst ht
          subst h
          simp [updateTakenDoc, Bool.not_not]
      · simp [updateTakenDoc, h]
    simp only [applyUpdateTaken, List.map_cons]
    rw [hd]
    exact congrArg (d :: ·) (ih fun x hx => hall x (List.mem_cons_of_mem d hx))

/-- Claim C1, counterexample: for the input whose data row is "A,  " (a
category field of two spaces), the accepted row's category field becomes
empty after trimming, yet the emitted record's category is the empty
string, not "Uncategorized" — so parseCSV can emit a record with an empty
category string. -/
theorem c1_counterexample :
    parseCSV "name,category\nA,  \nB,x" =
      .ok [{ name := "A", category := "", taken := false },
           { name := "B", category := "x", taken := false }] ∧
    ({ name := "A", category := "", taken := false } : Item).category ≠ "Uncategorized" := by
  constructor
  · decide
  · decide

/-- Claim C1, amended: for every data row accepted by the CSV parser, if
the row's raw category field is empty as-is (or the row has no field at the
category column), the emitted record's category is "Uncategorized"; a
category field that is non-empty but trims to empty is emitted as the empty
string, so emitted categories are not always non-empty. -/
theorem c1_category_default (nameIdx catIdx : Nat) (line : String) (it : Item)
    (hrow : parseRow nameIdx catIdx line = some it)
    (hraw : (jsSplit ',' line).getD catIdx "" = "") :
    it.category = "Uncategorized" := by
  unfold parseRow at hrow
  by_cases hl : line = ""
  · simp [hl] at hrow
  · rw [if_neg hl] at hrow
    simp only [hraw, if_pos rfl] at hrow
    split at hrow
    · simp at hrow
    · split at hrow
      · simp at hrow
      · rw [← Option.some.inj hrow]
        simp

/-- Claim C1, witness: the data line "B," has an empty raw category field
at column 1, and the accepted record's category is "Uncategorized". -/
theorem c1_witness :
    ({ name := "B", category := "Uncategorized", taken := false } : Item).category =
      "Uncategorized" :=
  c1_category_default 0 1 "B," { name := "B", category := "Uncategorized", taken := false }
    (by decide) (by decide)

/-- Claim C2, counterexample: a file-read failure (the reader's onerror
branch) surfaces the fixed message "Failed to read the file.", which does
not start with "Upload Failed: ", so it cannot equal "Upload Failed: "
followed by any underlying message; the uploading indicator is still reset. -/
theorem c2_counterexample :
    (readerOnError (startUpload initialAppState)).error = some "Failed to read the file." ∧
    (readerOnError (startUpload initialAppState)).uploading = false ∧
    strStartsWith "Failed to read the file." "Upload Failed: " = false := by
  refine ⟨rfl, rfl, by decide⟩

/-- Claim C2, amended: for every failure of the upload workflow reaching
the handler's catch branch (CSV parse error, empty parse result, fetch or
commit failure in steps 2–4), the user-visible error message equals
"Upload Failed: " concatenated with the underlying error's message and the
uploading indicator is reset to false; a file-read failure (step 1) instead
surfaces the fixed message "Failed to read the file.", also resetting the
uploading indicator. -/
theorem c2_failure_messages (msg : String) (s : AppState) :
    (uploadCatch msg s).error = some ("Upload Failed: " ++ msg) ∧
    (uploadCatch msg s).uploading = false ∧
    (readerOnError s).error = some "Failed to read the file." ∧
    (readerOnError s).uploading = false :=
  ⟨rfl, rfl, rfl, rfl⟩

/-- Claim C3: for every successful upload of a CSV parsing to a non-empty
item list, the committed batch deletes every existing document fetched from
the collection and inserts exactly the parsed records (the collection after
the commit is precisely the freshly created documents, with as many
documents as parsed items); uploading the same CSV twice in succession
therefore leaves the collection with the same final item set size both
times. -/
theorem c3_replace_all (coll : List ItemDoc) (s : AppState) (csv : String)
    (parsed : List Item) (f₁ f₂ : List String)
    (hp : parseCSV csv = .ok parsed) (hne : parsed ≠ [])
    (h₁ : f₁.length = parsed.length) (h₂ : f₂.length = parsed.length) :
    (readerOnLoad csv coll f₁ s).2 = mkDocs f₁ parsed ∧
    (readerOnLoad csv (readerOnLoad csv coll f₁ s).2 f₂ (readerOnLoad csv coll f₁ s).1).2 =
      mkDocs f₂ parsed ∧
    (readerOnLoad csv coll f₁ s).2.length = parsed.length ∧
    (readerOnLoad csv (readerOnLoad csv coll f₁ s).2 f₂ (readerOnLoad csv coll f₁ s).1).2.length =
      (readerOnLoad csv coll f₁ s).2.length := by
  have e₁ := readerOnLoad_ok csv coll f₁ s parsed hp hne
  have e₂ := readerOnLoad_ok csv (readerOnLoad csv coll f₁ s).2 f₂
    (readerOnLoad csv coll f₁ s).1 parsed hp hne
  refine ⟨e₁, e₂, ?_, ?_⟩
  · rw [e₁]
    exact mkDocs_length f₁ parsed h₁
  · rw [e₂, e₁, mkDocs_length f₂ parsed h₂, mkDocs_length f₁ parsed h₁]

/-- Claim C3, witness: a concrete double upload of a two-row CSV over a
one-document collection yields a two-document collection both times. -/
theorem c3_witness :
    (readerOnLoad "name,category\nA,Cat1\nB," [{ id := "old", name := "O", category := "C", taken := false }]
        ["n1", "n2"] (startUpload initialAppState)).2.length =
      ([{ name := "A", category := "Cat1", taken := false },
        { name := "B", category := "Uncategorized", taken := false }] : List Item).length :=
  (c3_replace_all [{ id := "old", name := "O", category := "C", taken := false }]
    (startUpload initialAppState) "name,category\nA,Cat1\nB,"
    [{ name := "A", category := "Cat1", taken := false },
     { name := "B", category := "Uncategorized", taken := false }]
    ["n1", "n2"] ["m1", "m2"] (by decide) (by decide) (by decide) (by decide)).2.2.1

/-- Claim C4: on the input with header "name,category" and data lines
"A,Cat1", "B," and ",Cat2", parseCSV returns exactly the two records
(A, Cat1) and (B, Uncategorized), both not taken, in that order, dropping
the blank-name row; and for every input whose header lacks a name or a
category column under case-insensitive matching, parseCSV fails with the
format error. -/
theorem c4_parse_example_and_missing_columns :
    parseCSV "name,category\nA,Cat1\nB,\n,Cat2" =
      .ok [{ name := "A", category := "Cat1", taken := false },
           { name := "B", category := "Uncategorized", taken := false }] ∧
    ∀ csv : String, ("name" ∉ csvHeaders csv ∨ "category" ∉ csvHeaders csv) →
      parseCSV csv = .error formatErrorMsg := by
  constructor
  · decide
  · intro csv h
    unfold parseCSV
    split
    next nameIdx catIdx hn hc =>
      exfalso
      rcases h with h | h
      · rw [(idxOf_eq_none_iff _ _).mpr h] at hn
        exact Option.noConfusion hn
      · rw [(idxOf_eq_none_iff _ _).mpr h] at hc
        exact Option.noConfusion hc
    next => rfl

/-- Claim C4, witness: a header "foo,bar" lacks the name column, so
parseCSV fails with the format error. -/
theorem c4_witness : parseCSV "foo,bar\nx,y" = .error formatErrorMsg :=
  c4_parse_example_and_missing_columns.2 "foo,bar\nx,y" (Or.inl (by decide))

/-- The three-item example list from the spec's Derived View State test. -/
def exampleItems : List ItemDoc :=
  [{ id := "1", name := "x", category := "A", taken := true },
   { id := "2", name := "y", category := "A", taken := false },
   { id := "3", name := "z", category := "B", taken := false }]

/-- Claim C5: the dashboard counts are computed from the category-filtered
list only — total is its length, taken counts its items with taken = true,
notTaken = total - taken — and changing the search text never changes any
of the three counts; on the spec's example list with category "A" selected
the counts are total = 2, taken = 1, notTaken = 1 for every search text. -/
theorem c5_dashboard_stats (items : List ItemDoc) (sel q₁ q₂ : String) :
    (derivedView items sel q₁).stats = (derivedView items sel q₂).stats ∧
    (dashboardStats items sel).total = (categoryFilteredItems items sel).length ∧
    (dashboardStats items sel).taken =
      ((categoryFilteredItems items sel).filter (fun it => it.taken)).length ∧
    (dashboardStats items sel).notTaken =
      (dashboardStats items sel).total - (dashboardStats items sel).taken ∧
    (∀ q : String, (derivedView exampleItems "A" q).stats =
      { total := 2, taken := 1, notTaken := 1 }) :=
  ⟨rfl, rfl, rfl, rfl, fun _ => show dashboardStats exampleItems "A" = _ by decide⟩

/-- Claim C6: the displayed list equals the spec's two-stage pipeline —
Stage 1 passes the list through unchanged for the "All" sentinel and
otherwise keeps exactly the items whose category equals the selection;
Stage 2 passes Stage 1's output through unchanged for an empty search text
and otherwise keeps exactly the items whose lowercased name contains the
lowercased search text as a substring. -/
theorem c6_display_pipeline (items : List ItemDoc) (sel q : String) :
    displayedItems items sel q = specStage2 (specStage1 items sel) q := rfl

/-- Claim C7: for every CSV input that parses to zero accepted rows, the
upload handler fails before any write is attempted — the resulting error
banner is "Upload Failed: No valid items found in the CSV." and the
persisted collection is returned unchanged. -/
theorem c7_empty_parse (csv : String) (coll : List ItemDoc) (fresh : List String)
    (s : AppState) (hp : parseCSV csv = .ok []) :
    readerOnLoad csv coll fresh s = (uploadCatch "No valid items found in the CSV." s, coll) ∧
    (readerOnLoad csv coll fresh s).1.error =
      some "Upload Failed: No valid items found in the CSV." ∧
    (readerOnLoad csv coll fresh s).2 = coll := by
  have h : readerOnLoad csv coll fresh s =
      (uploadCatch "No valid items found in the CSV." s, coll) := by
    unfold readerOnLoad
    rw [hp]
    rfl
  exact ⟨h, by rw [h]; rfl, by rw [h]⟩

/-- Claim C7, witness: a header-only file with valid columns parses to
zero rows and leaves a one-document collection untouched, surfacing the
no-valid-items message. -/
theorem c7_witness :
    readerOnLoad "name,category" [{ id := "d1", name := "N", category := "C", taken := false }]
        [] (startUpload initialAppState) =
      (uploadCatch "No valid items found in the CSV." (startUpload initialAppState),
       [{ id := "d1", name := "N", category := "C", taken := false }]) :=
  (c7_empty_parse "name,category" [{ id := "d1", name := "N", category := "C", taken := false }]
    [] (startUpload initialAppState) (by decide)).1

/-- Claim C8: the subscription's error callback surfaces a user-visible
error and clears the loading flag while leaving the items list, the
category list, and every other state slot exactly as they were. -/
theorem c8_subscription_error (s : AppState) :
    (onSnapshotError s).error = some "Failed to load items. Check console for details." ∧
    (onSnapshotError s).isLoading = false ∧
    (onSnapshotError s).items = s.items ∧
    (onSnapshotError s).categories = s.categories ∧
    (onSnapshotError s).selectedCategory = s.selectedCategory ∧
    (onSnapshotError s).searchQuery = s.searchQuery ∧
    (onSnapshotError s).userId = s.userId ∧
    (onSnapshotError s).uploading = s.uploading :=
  ⟨rfl, rfl, rfl, rfl, rfl, rfl, rfl, rfl⟩

/-- Claim C9: with no session identity, handleTakeItem surfaces an
authorization error and requests no write; with a session, it requests a
write of the logical negation of the passed taken value, touching only the
taken field of the targeted document; and applying the interaction twice,
each time passing the value produced by the previous write, restores every
document to its original taken value. -/
theorem c9_take_toggle (itemId : String) (cur : Bool) (s : AppState) (docs : List ItemDoc) :
    (s.userId = none →
      handleTakeItem itemId cur s =
        ({ s with error := some "You must be signed in to take an item." }, .noWrite)) ∧
    (∀ uid, s.userId = some uid →
      handleTakeItem itemId cur s = (s, .updateTaken itemId (!cur))) ∧
    (∀ v d, (updateTakenDoc itemId v d).id = d.id ∧
      (updateTakenDoc itemId v d).name = d.name ∧
      (updateTakenDoc itemId v d).category = d.category) ∧
    ((∀ d ∈ docs, d.id = itemId → d.taken = cur) →
      applyUpdateTaken itemId (!(!cur)) (applyUpdateTaken itemId (!cur) docs) = docs) := by
  refine ⟨?_, ?_, ?_, applyUpdateTaken_twice itemId cur docs⟩
  · intro h
    unfold handleTakeItem
    rw [h]
  · intro uid h
    unfold handleTakeItem
    rw [h]
  · intro v d
    unfold updateTakenDoc
    split
    · exact ⟨rfl, rfl, rfl⟩
    · exact ⟨rfl, rfl, rfl⟩

/-- Claim C9, witness: toggling a concrete taken item twice restores the
one-document collection. -/
theorem c9_witness :
    applyUpdateTaken "i1" (!(!true)) (applyUpdateTaken "i1" (!true)
      [{ id := "i1", name := "A", category := "C", taken := true }]) =
      [{ id := "i1", name := "A", category := "C", taken := true }] :=
  (c9_take_toggle "i1" true initialAppState
    [{ id := "i1", name := "A", category := "C", taken := true }]).2.2.2 (by decide)

/-- Claim C10: the snapshot success handler rebuilds the item and category
lists, clears the loading flag, and unconditionally resets the error slot
to null — in particular an error message previously set by any failure is
cleared by the next snapshot push. -/
theorem c10_snapshot_clears_error (docs : List ItemDoc) (s : AppState) :
    (onSnapshotSuccess docs s).error = none ∧
    (onSnapshotSuccess docs s).isLoading = false ∧
    (onSnapshotSuccess docs s).items = docs ∧
    (onSnapshotSuccess docs s).categories = buildCategories docs ∧
    (∀ msg : String, (onSnapshotSuccess docs { s with error := some msg }).error = none) :=
  ⟨rfl, rfl, rfl, rfl, fun _ => rfl⟩

end InvenTrack
